import Mathlib

/-!
Shallow embedding of the reflow hot-plate controller firmware (src/src/main.cpp)
and verification of the specification claims about it.

Modelling conventions:
* C++ `int` globals are modelled as `ℤ`; C++ `double` values as `ℚ`
  (every arithmetic step the firmware performs on them is exact rational
  arithmetic on the values that actually occur: sums, differences, products
  and quotients of profile integers and multiples of 0.25 s).
* All TFT drawing, serial printing and pin bookkeeping with no effect on the
  control state is dropped; writes to the SSR (heater) and fan pins are kept
  as `ssrLevel`/`fanOn` fields together with write counters `ssrWrites` /
  `fanWrites`, so that "no output is written" is expressible.
* The `millis()` rate-limiting gates (`SSRTimer`, `temperatureTimer`) are
  modelled as always due: one call of a tick function models one executed
  250 ms control step, matching `SSRInterval / 1000.0 = 0.25` s.
-/

namespace Hotplate

/-- One entry of the `solderpaste` struct array (the name string is omitted:
it never influences control). Field order follows the source struct. -/
structure Solderpaste where
  preheatTemp : ℤ
  preheatTime : ℤ
  soakingTemp : ℤ
  soakingTime : ℤ
  reflowTemp : ℤ
  reflowTime : ℤ
  coolingTemp : ℤ
  coolingTime : ℤ
deriving DecidableEq

/-- The `ReflowPhase` enum of the source. -/
inductive ReflowPhase
  | PREHEAT
  | SOAK
  | REFLOW
  | HOLD
  | COOLING
deriving DecidableEq

/-- Paste 0, "Sn42/Bi57.6/Ag0.4". -/
def paste0 : Solderpaste := ⟨90, 90, 130, 180, 165, 240, 165, 250⟩

/-- Paste 1, "Sn42/Bi57/Ag1" (same numbers as paste 0). -/
def paste1 : Solderpaste := ⟨90, 90, 130, 180, 165, 240, 165, 250⟩

/-- Paste 2, "Sn63/Pb37". -/
def paste2 : Solderpaste := ⟨100, 30, 150, 120, 235, 210, 235, 220⟩

/-- Paste 3, "Sn63/Pb37 Mod". -/
def paste3 : Solderpaste := ⟨100, 60, 150, 120, 235, 210, 235, 220⟩

/-- `numSolderpastes = sizeof(solderpastes) / sizeof(solderpaste)`. -/
def numSolderpastes : ℤ := 4

/-- `solderpastes[i]`.  The index is always kept in `[0, numSolderpastes)`
by the wrap-around logic of the encoder ISR; out-of-range indices (never
produced) default to paste 0. -/
def pasteAt (i : ℤ) : Solderpaste :=
  if i = 0 then paste0
  else if i = 1 then paste1
  else if i = 2 then paste2
  else if i = 3 then paste3
  else paste0

/-- `preheatCutOffTime` (s). -/
def preheatCutOffTime : ℤ := 15

/-- `reflowCutOffTime` (s). -/
def reflowCutOffTime : ℤ := 15

/-- The target-temperature law of `runReflow`, one arm per `currentPhase`
case of its `switch`, transcribed from the source expressions:
* PREHEAT: `20 + (elapsedHeatingTime * (1.0 / preheatTime) * (preheatTemp - 20))`
* SOAK:    `preheatTemp + ((t - preheatTime) / (soakingTime - preheatTime)) * (soakingTemp - preheatTemp)`
* REFLOW:  `soakingTemp + ((t - soakingTime) / (reflowTime - soakingTime)) * (reflowTemp - soakingTemp)`
* HOLD:    `reflowTemp + ((t - reflowTime) / (coolingTime - reflowTime)) * (coolingTemp - reflowTemp)`
* COOLING: fixed `40`. -/
def reflowTarget (p : Solderpaste) (ph : ReflowPhase) (t : ℚ) : ℚ :=
  match ph with
  | .PREHEAT => 20 + (t * (1 / (p.preheatTime : ℚ)) * ((p.preheatTemp : ℚ) - 20))
  | .SOAK =>
      (p.preheatTemp : ℚ) +
        ((t - (p.preheatTime : ℚ)) / ((p.soakingTime : ℚ) - (p.preheatTime : ℚ))) *
          ((p.soakingTemp : ℚ) - (p.preheatTemp : ℚ))
  | .REFLOW =>
      (p.soakingTemp : ℚ) +
        ((t - (p.soakingTime : ℚ)) / ((p.reflowTime : ℚ) - (p.soakingTime : ℚ))) *
          ((p.reflowTemp : ℚ) - (p.soakingTemp : ℚ))
  | .HOLD =>
      (p.reflowTemp : ℚ) +
        ((t - (p.reflowTime : ℚ)) / ((p.coolingTime : ℚ) - (p.reflowTime : ℚ))) *
          ((p.coolingTemp : ℚ) - (p.reflowTemp : ℚ))
  | .COOLING => 40

/-- The phase-transition test of `runReflow`, one arm per `switch` case:
PREHEAT, SOAK and HOLD advance on `temp && time`, REFLOW advances on
`temp || time` (source line `if (TCCelsius > reflowTemp || elapsedHeatingTime > reflowTime)`),
COOLING is terminal. `tc` is `TCCelsius`, `t` is `elapsedHeatingTime`. -/
def nextPhase (p : Solderpaste) (tc t : ℚ) (ph : ReflowPhase) : ReflowPhase :=
  match ph with
  | .PREHEAT =>
      if tc > (p.preheatTemp : ℚ) ∧ t > (p.preheatTime : ℚ) then .SOAK else .PREHEAT
  | .SOAK =>
      if tc > (p.soakingTemp : ℚ) ∧ t > (p.soakingTime : ℚ) then .REFLOW else .SOAK
  | .REFLOW =>
      if tc > (p.reflowTemp : ℚ) ∨ t > (p.reflowTime : ℚ) then .HOLD else .REFLOW
  | .HOLD =>
      if tc > (p.coolingTemp : ℚ) ∧ t > (p.coolingTime : ℚ) then .COOLING else .HOLD
  | .COOLING => .COOLING

/-- The heater (SSR PWM) output law of `runReflow`, one arm per `switch` case;
`cutP`/`cutR` are `preheatCutOff`/`reflowCutOff`, `tgt` the target just
computed for this tick.  C++ precedence: `a && b || c` is `(a && b) || c`. -/
def reflowOutput (cutP cutR : ℤ) (tc t tgt : ℚ) (ph : ReflowPhase) : ℚ :=
  match ph with
  | .PREHEAT => if (t ≥ (cutP : ℚ) ∧ tc ≥ tgt - 15) ∨ tc ≥ tgt then 0 else 255
  | .SOAK => if tc < tgt then 150 else 0
  | .REFLOW => if (t ≥ (cutR : ℚ) ∧ tc ≥ tgt - 15) ∨ tc ≥ tgt then 0 else 255
  | .HOLD => if tc < tgt then 50 else 0
  | .COOLING => 0

/-- The spec's interpolation law `target(t) = startTemp + (t - startTime) /
(endTime - startTime) * (endTemp - startTemp)` (spec section 4.2). -/
def interp (t0 temp0 t1 temp1 t : ℚ) : ℚ :=
  temp0 + (t - t0) / (t1 - t0) * (temp1 - temp0)

/-- The profile invariant of the spec: strictly increasing breakpoint times
(and positive preheat end time, since interpolation anchors PREHEAT at 0). -/
def StrictTimes (p : Solderpaste) : Prop :=
  0 < p.preheatTime ∧ p.preheatTime < p.soakingTime ∧
    p.soakingTime < p.reflowTime ∧ p.reflowTime < p.coolingTime

instance (p : Solderpaste) : Decidable (StrictTimes p) := by
  unfold StrictTimes; infer_instance

/-- The controller's mutable global state (free-standing globals in the
source).  Display/serial state carrying no control information is omitted;
so are the `prev_` shadow copies of the eight profile fields and
`previousItemCounter` (they only gate screen redraws).
`prev_solderPasteSelected` is kept: it gates the profile copy in menu
case 15.  `fhSlowdown`/`fhRampup` are `freeHeating`'s function-local
`static bool slowdown/rampup`; `wuSlowdown`/`wuRampup` are `runWarmup`'s.
`ssrLevel`/`fanOn` are the last values written to the SSR and fan pins,
`ssrWrites`/`fanWrites` count those writes. -/
structure Controller where
  CLKPrevious : Bool
  itemCounter : ℤ
  editMode : Bool
  menuChanged : Bool
  preheatTempSelected : Bool
  preheatTimeSelected : Bool
  soakingTempSelected : Bool
  soakingTimeSelected : Bool
  reflowTempSelected : Bool
  reflowTimeSelected : Bool
  coolingTempSelected : Bool
  coolingTimeSelected : Bool
  warmupTempSelected : Bool
  freeWarmUpButtonSelected : Bool
  startStopButtonSelected : Bool
  freeHeatingTargetSelected : Bool
  freeHeatingOnOffSelected : Bool
  freeCoolingTargetSelected : Bool
  freeCoolingOnOffSelected : Bool
  solderpasteFieldSelected : Bool
  preheatTemp : ℤ
  preheatTime : ℤ
  soakingTemp : ℤ
  soakingTime : ℤ
  reflowTemp : ℤ
  reflowTime : ℤ
  coolingTemp : ℤ
  coolingTime : ℤ
  warmupTemp : ℤ
  freeHeatingTemp : ℤ
  freeCoolingTemp : ℤ
  solderPasteSelected : ℤ
  prev_solderPasteSelected : ℤ
  preheatCutOff : ℤ
  reflowCutOff : ℤ
  reflow : Bool
  enableWarmup : Bool
  enableFreeHeating : Bool
  enableFreeCooling : Bool
  heatingEnabled : Bool
  coolingFanEnabled : Bool
  currentPhase : ReflowPhase
  elapsedHeatingTime : ℚ
  targetTemp : ℚ
  TCCelsius : ℚ
  tempFault : Bool
  Output : ℚ
  fhSlowdown : Bool
  fhRampup : Bool
  wuSlowdown : Bool
  wuRampup : Bool
  ssrLevel : ℚ
  fanOn : Bool
  ssrWrites : ℕ
  fanWrites : ℕ
deriving DecidableEq

/-- The working profile (`preheatTemp` … `coolingTime` globals) as a
`Solderpaste` value: the eight fields `runReflow` interpolates over and the
profile copy of menu case 15 writes. -/
def workingPaste (s : Controller) : Solderpaste :=
  ⟨s.preheatTemp, s.preheatTime, s.soakingTemp, s.soakingTime,
   s.reflowTemp, s.reflowTime, s.coolingTemp, s.coolingTime⟩

/-- The state after `setup()`: paste 0 copied into the working set, cutoffs
computed from it, all flags cleared, `itemCounter = -1`, fan left off.
`clk0` is the boot-time `digitalRead(RotaryCLK)`; `out0` models the
uninitialised global `double Output`. -/
def initState (clk0 : Bool) (out0 : ℚ) : Controller where
  CLKPrevious := clk0
  itemCounter := -1
  editMode := false
  menuChanged := false
  preheatTempSelected := false
  preheatTimeSelected := false
  soakingTempSelected := false
  soakingTimeSelected := false
  reflowTempSelected := false
  reflowTimeSelected := false
  coolingTempSelected := false
  coolingTimeSelected := false
  warmupTempSelected := false
  freeWarmUpButtonSelected := false
  startStopButtonSelected := false
  freeHeatingTargetSelected := false
  freeHeatingOnOffSelected := false
  freeCoolingTargetSelected := false
  freeCoolingOnOffSelected := false
  solderpasteFieldSelected := false
  preheatTemp := paste0.preheatTemp
  preheatTime := paste0.preheatTime
  soakingTemp := paste0.soakingTemp
  soakingTime := paste0.soakingTime
  reflowTemp := paste0.reflowTemp
  reflowTime := paste0.reflowTime
  coolingTemp := paste0.coolingTemp
  coolingTime := paste0.coolingTime
  warmupTemp := 38
  freeHeatingTemp := 200
  freeCoolingTemp := 40
  solderPasteSelected := 0
  prev_solderPasteSelected := 0
  preheatCutOff := paste0.preheatTime - preheatCutOffTime
  reflowCutOff := paste0.reflowTime - reflowCutOffTime
  reflow := false
  enableWarmup := false
  enableFreeHeating := false
  enableFreeCooling := false
  heatingEnabled := false
  coolingFanEnabled := false
  currentPhase := .PREHEAT
  elapsedHeatingTime := 0
  targetTemp := 0
  TCCelsius := 0
  tempFault := false
  Output := out0
  fhSlowdown := false
  fhRampup := true
  wuSlowdown := false
  wuRampup := true
  ssrLevel := 0
  fanOn := false
  ssrWrites := 0
  fanWrites := 0

/-- `rotaryEncoderISR()`: one interrupt for a change on the CLK pin.
`clkNow` is the fresh `digitalRead(RotaryCLK)`, `dtLevel` the
`digitalRead(RotaryDT)`.  The `else if` chain order and the per-field
bounds follow the source; the four mode-button branches are (exactly as in
the source) complete no-ops, not even updating `CLKPrevious`. -/
def rotaryEncoderISR (clkNow dtLevel : Bool) (s : Controller) : Controller :=
  if s.preheatTempSelected = true then
    let s1 :=
      if clkNow ≠ s.CLKPrevious ∧ clkNow = true then
        if dtLevel ≠ clkNow then
          if s.preheatTemp > 20 then { s with preheatTemp := s.preheatTemp - 1 } else s
        else
          if s.preheatTemp < 150 then { s with preheatTemp := s.preheatTemp + 1 } else s
      else s
    { s1 with menuChanged := true, CLKPrevious := clkNow }
  else if s.preheatTimeSelected = true then
    let s1 :=
      if clkNow ≠ s.CLKPrevious ∧ clkNow = true then
        if dtLevel ≠ clkNow then
          if s.preheatTime > 0 then { s with preheatTime := s.preheatTime - 1 } else s
        else
          if s.preheatTime < 90 then { s with preheatTime := s.preheatTime + 1 } else s
      else s
    { s1 with menuChanged := true, CLKPrevious := clkNow }
  else if s.soakingTempSelected = true then
    let s1 :=
      if clkNow ≠ s.CLKPrevious ∧ clkNow = true then
        if dtLevel ≠ clkNow then
          if s.soakingTemp > 20 then { s with soakingTemp := s.soakingTemp - 1 } else s
        else
          if s.soakingTemp < 180 then { s with soakingTemp := s.soakingTemp + 1 } else s
      else s
    { s1 with menuChanged := true, CLKPrevious := clkNow }
  else if s.soakingTimeSelected = true then
    let s1 :=
      if clkNow ≠ s.CLKPrevious ∧ clkNow = true then
        if dtLevel ≠ clkNow then
          if s.soakingTime > 0 then { s with soakingTime := s.soakingTime - 1 } else s
        else
          if s.soakingTime < 180 then { s with soakingTime := s.soakingTime + 1 } else s
      else s
    { s1 with menuChanged := true, CLKPrevious := clkNow }
  else if s.reflowTempSelected = true then
    let s1 :=
      if clkNow ≠ s.CLKPrevious ∧ clkNow = true then
        if dtLevel ≠ clkNow then
          if s.reflowTemp > 0 then { s with reflowTemp := s.reflowTemp - 1 } else s
        else
          if s.reflowTemp < 250 then { s with reflowTemp := s.reflowTemp + 1 } else s
      else s
    { s1 with menuChanged := true, CLKPrevious := clkNow }
  else if s.reflowTimeSelected = true then
    let s1 :=
      if clkNow ≠ s.CLKPrevious ∧ clkNow = true then
        if dtLevel ≠ clkNow then
          if s.reflowTime > 0 then { s with reflowTime := s.reflowTime - 1 } else s
        else
          if s.reflowTime < 240 then { s with reflowTime := s.reflowTime + 1 } else s
      else s
    { s1 with menuChanged := true, CLKPrevious := clkNow }
  else if s.coolingTempSelected = true then
    let s1 :=
      if clkNow ≠ s.CLKPrevious ∧ clkNow = true then
        if dtLevel ≠ clkNow then
          if s.coolingTemp > 0 then { s with coolingTemp := s.coolingTemp - 1 } else s
        else
          if s.coolingTemp < 250 then { s with coolingTemp := s.coolingTemp + 1 } else s
      else s
    { s1 with menuChanged := true, CLKPrevious := clkNow }
  else if s.coolingTimeSelected = true then
    let s1 :=
      if clkNow ≠ s.CLKPrevious ∧ clkNow = true then
        if dtLevel ≠ clkNow then
          if s.coolingTime > 0 then { s with coolingTime := s.coolingTime - 1 } else s
        else
          if s.coolingTime < 250 then { s with coolingTime := s.coolingTime + 1 } else s
      else s
    { s1 with menuChanged := true, CLKPrevious := clkNow }
  else if s.warmupTempSelected = true then
    let s1 :=
      if clkNow ≠ s.CLKPrevious ∧ clkNow = true then
        if dtLevel ≠ clkNow then
          if s.warmupTemp > 20 then { s with warmupTemp := s.warmupTemp - 1 } else s
        else
          if s.warmupTemp < 60 then { s with warmupTemp := s.warmupTemp + 1 } else s
      else s
    { s1 with menuChanged := true, CLKPrevious := clkNow }
  else if s.freeWarmUpButtonSelected = true then
    s
  else if s.freeHeatingTargetSelected = true then
    let s1 :=
      if clkNow ≠ s.CLKPrevious ∧ clkNow = true then
        if dtLevel ≠ clkNow then
          if s.freeHeatingTemp > 20 then { s with freeHeatingTemp := s.freeHeatingTemp - 1 } else s
        else
          if s.freeHeatingTemp < 300 then { s with freeHeatingTemp := s.freeHeatingTemp + 1 } else s
      else s
    { s1 with menuChanged := true, CLKPrevious := clkNow }
  else if s.startStopButtonSelected = true then
    s
  else if s.freeCoolingTargetSelected = true then
    let s1 :=
      if clkNow ≠ s.CLKPrevious ∧ clkNow = true then
        if dtLevel ≠ clkNow then
          if s.freeCoolingTemp > 20 then { s with freeCoolingTemp := s.freeCoolingTemp - 1 } else s
        else
          if s.freeCoolingTemp < 200 then { s with freeCoolingTemp := s.freeCoolingTemp + 1 } else s
      else s
    { s1 with menuChanged := true, CLKPrevious := clkNow }
  else if s.freeHeatingOnOffSelected = true then
    s
  else if s.freeCoolingOnOffSelected = true then
    s
  else if s.solderpasteFieldSelected = true then
    let s1 :=
      if clkNow ≠ s.CLKPrevious ∧ clkNow = true then
        if dtLevel ≠ clkNow then
          if s.solderPasteSelected > 0 then
            { s with solderPasteSelected := s.solderPasteSelected - 1 }
          else
            { s with solderPasteSelected := numSolderpastes - 1 }
        else
          if s.solderPasteSelected < numSolderpastes - 1 then
            { s with solderPasteSelected := s.solderPasteSelected + 1 }
          else
            { s with solderPasteSelected := 0 }
      else s
    { s1 with menuChanged := true, CLKPrevious := clkNow }
  else
    let s1 :=
      if clkNow ≠ s.CLKPrevious ∧ clkNow = true then
        if dtLevel ≠ clkNow then
          if s.itemCounter > 0 then { s with itemCounter := s.itemCounter - 1 }
          else { s with itemCounter := 15 }
        else
          if s.itemCounter < 15 then { s with itemCounter := s.itemCounter + 1 }
          else { s with itemCounter := 0 }
      else s
    { s1 with menuChanged := true, CLKPrevious := clkNow }

/-- Menu case 0, preheat temperature: toggle the field selection and the
edit mode (all further effects of this case are TFT drawing and the
`prev_preheatTemp` redraw shadow, both display-only). -/
def pressCase0 (s : Controller) : Controller :=
  let sel := !s.preheatTempSelected
  if sel = true then { s with preheatTempSelected := sel, editMode := true }
  else { s with preheatTempSelected := sel, editMode := false }

/-- Menu case 1, preheat time. -/
def pressCase1 (s : Controller) : Controller :=
  let sel := !s.preheatTimeSelected
  if sel = true then { s with preheatTimeSelected := sel, editMode := true }
  else { s with preheatTimeSelected := sel, editMode := false }

/-- Menu case 2, soaking temperature. -/
def pressCase2 (s : Controller) : Controller :=
  let sel := !s.soakingTempSelected
  if sel = true then { s with soakingTempSelected := sel, editMode := true }
  else { s with soakingTempSelected := sel, editMode := false }

/-- Menu case 3, soaking time. -/
def pressCase3 (s : Controller) : Controller :=
  let sel := !s.soakingTimeSelected
  if sel = true then { s with soakingTimeSelected := sel, editMode := true }
  else { s with soakingTimeSelected := sel, editMode := false }

/-- Menu case 4, reflow temperature. -/
def pressCase4 (s : Controller) : Controller :=
  let sel := !s.reflowTempSelected
  if sel = true then { s with reflowTempSelected := sel, editMode := true }
  else { s with reflowTempSelected := sel, editMode := false }

/-- Menu case 5, reflow time. -/
def pressCase5 (s : Controller) : Controller :=
  let sel := !s.reflowTimeSelected
  if sel = true then { s with reflowTimeSelected := sel, editMode := true }
  else { s with reflowTimeSelected := sel, editMode := false }

/-- Menu case 6, cooling temperature. -/
def pressCase6 (s : Controller) : Controller :=
  let sel := !s.coolingTempSelected
  if sel = true then { s with coolingTempSelected := sel, editMode := true }
  else { s with coolingTempSelected := sel, editMode := false }

/-- Menu case 7, cooling time. -/
def pressCase7 (s : Controller) : Controller :=
  let sel := !s.coolingTimeSelected
  if sel = true then { s with coolingTimeSelected := sel, editMode := true }
  else { s with coolingTimeSelected := sel, editMode := false }

/-- Menu case 8, warm-up target temperature field. -/
def pressCase8 (s : Controller) : Controller :=
  let sel := !s.warmupTempSelected
  if sel = true then { s with warmupTempSelected := sel, editMode := true }
  else { s with warmupTempSelected := sel, editMode := false }

/-- Menu case 9, the WARMUP button.  Start: clear `reflow`, enable warm-up,
enable heating, reset the elapsed clock.  Stop: disable warm-up, write the
SSR off, clear `reflow`/`heatingEnabled` (the trailing
`menuChanged = true; updateHighlighting()` pair nets to
`menuChanged = false`, as does the dispatcher epilogue). -/
def pressCase9 (s : Controller) : Controller :=
  let sel := !s.freeWarmUpButtonSelected
  if sel = true then
    { s with freeWarmUpButtonSelected := sel, reflow := false,
             enableWarmup := true, heatingEnabled := true, elapsedHeatingTime := 0 }
  else
    { s with freeWarmUpButtonSelected := sel, enableWarmup := false,
             ssrLevel := 0, ssrWrites := s.ssrWrites + 1,
             reflow := false, heatingEnabled := false }

/-- Menu case 10, the REFLOW start/stop button.  Start: phase back to
PREHEAT, `reflow` and `heatingEnabled` on, elapsed clock to 0.  Stop: SSR
written off, `reflow`/`heatingEnabled` cleared, fan pin written off. -/
def pressCase10 (s : Controller) : Controller :=
  let sel := !s.startStopButtonSelected
  if sel = true then
    { s with startStopButtonSelected := sel, editMode := true,
             currentPhase := .PREHEAT, reflow := true,
             heatingEnabled := true, elapsedHeatingTime := 0 }
  else
    { s with startStopButtonSelected := sel,
             ssrLevel := 0, ssrWrites := s.ssrWrites + 1,
             reflow := false, heatingEnabled := false,
             fanOn := false, fanWrites := s.fanWrites + 1, editMode := false }

/-- Menu case 11, free-heating target temperature field. -/
def pressCase11 (s : Controller) : Controller :=
  let sel := !s.freeHeatingTargetSelected
  if sel = true then { s with freeHeatingTargetSelected := sel, editMode := true }
  else { s with freeHeatingTargetSelected := sel, editMode := false }

/-- Menu case 12, the HEATING start/stop button. -/
def pressCase12 (s : Controller) : Controller :=
  let sel := !s.freeHeatingOnOffSelected
  if sel = true then
    { s with freeHeatingOnOffSelected := sel, reflow := false,
             enableFreeHeating := true, heatingEnabled := true, elapsedHeatingTime := 0 }
  else
    { s with freeHeatingOnOffSelected := false, enableFreeHeating := false,
             ssrLevel := 0, ssrWrites := s.ssrWrites + 1,
             reflow := false, heatingEnabled := false }

/-- Menu case 13, free-cooling target temperature field. -/
def pressCase13 (s : Controller) : Controller :=
  let sel := !s.freeCoolingTargetSelected
  if sel = true then { s with freeCoolingTargetSelected := sel, editMode := true }
  else { s with freeCoolingTargetSelected := sel, editMode := false }

/-- Menu case 14, the COOLING start/stop button.  Start also writes the SSR
off "just in case"; stop clears `coolingFanEnabled` but notably performs no
fan-pin write. -/
def pressCase14 (s : Controller) : Controller :=
  let sel := !s.freeCoolingOnOffSelected
  if sel = true then
    { s with freeCoolingOnOffSelected := sel, reflow := false,
             enableFreeCooling := true, elapsedHeatingTime := 0,
             ssrLevel := 0, ssrWrites := s.ssrWrites + 1 }
  else
    { s with freeCoolingOnOffSelected := false, enableFreeCooling := false,
             heatingEnabled := false, reflow := false, coolingFanEnabled := false }

/-- The unconditional eight-field copy of menu case 15 (the
`selectProfile` operation of the spec): transpose the chosen
`solderpaste` entry into the working set and recompute the two heater
cut-off times.  The source performs no validity check of any kind here and
has no error path. -/
def selectProfileCopy (p : Solderpaste) (s : Controller) : Controller :=
  { s with preheatTemp := p.preheatTemp, preheatTime := p.preheatTime,
           soakingTemp := p.soakingTemp, soakingTime := p.soakingTime,
           reflowTemp := p.reflowTemp, reflowTime := p.reflowTime,
           coolingTemp := p.coolingTemp, coolingTime := p.coolingTime,
           preheatCutOff := p.preheatTime - preheatCutOffTime,
           reflowCutOff := p.reflowTime - reflowCutOffTime }

/-- Menu case 15, the solder-paste field: on leaving edit mode, if the
selection changed, copy the selected paste into the working set. -/
def pressCase15 (s : Controller) : Controller :=
  let sel := !s.solderpasteFieldSelected
  if sel = true then { s with solderpasteFieldSelected := sel, editMode := true }
  else
    let s1 := { s with solderpasteFieldSelected := sel }
    let s2 :=
      if s1.prev_solderPasteSelected ≠ s1.solderPasteSelected then
        { selectProfileCopy (pasteAt s1.solderPasteSelected) s1 with
          prev_solderPasteSelected := s1.solderPasteSelected }
      else s1
    { s2 with editMode := false }

/-- `processRotaryButton()`: dispatch on `itemCounter`; the epilogue always
clears `menuChanged`. -/
def processRotaryButton (s : Controller) : Controller :=
  let s1 :=
    if s.itemCounter = 0 then pressCase0 s
    else if s.itemCounter = 1 then pressCase1 s
    else if s.itemCounter = 2 then pressCase2 s
    else if s.itemCounter = 3 then pressCase3 s
    else if s.itemCounter = 4 then pressCase4 s
    else if s.itemCounter = 5 then pressCase5 s
    else if s.itemCounter = 6 then pressCase6 s
    else if s.itemCounter = 7 then pressCase7 s
    else if s.itemCounter = 8 then pressCase8 s
    else if s.itemCounter = 9 then pressCase9 s
    else if s.itemCounter = 10 then pressCase10 s
    else if s.itemCounter = 11 then pressCase11 s
    else if s.itemCounter = 12 then pressCase12 s
    else if s.itemCounter = 13 then pressCase13 s
    else if s.itemCounter = 14 then pressCase14 s
    else if s.itemCounter = 15 then pressCase15 s
    else s
  { s1 with menuChanged := false }

/-- `runReflow()`: one due 250 ms control step of the reflow mode.
Guarded by `reflow == true` and `elapsedHeatingTime < 340`; otherwise a
complete no-op.  Inside: compute the phase target, drive the SSR, check
the phase transition (all from the tick's incoming phase, temperature and
elapsed time), in COOLING additionally hand over from heater to fan; then
advance the elapsed clock by `SSRInterval / 1000.0 = 0.25` s. -/
def runReflow (s : Controller) : Controller :=
  if s.reflow = true ∧ s.elapsedHeatingTime < 340 then
    let tgt := reflowTarget (workingPaste s) s.currentPhase s.elapsedHeatingTime
    let out := reflowOutput s.preheatCutOff s.reflowCutOff s.TCCelsius
                 s.elapsedHeatingTime tgt s.currentPhase
    let ph2 := nextPhase (workingPaste s) s.TCCelsius s.elapsedHeatingTime s.currentPhase
    let s1 := { s with targetTemp := tgt, Output := out,
                       ssrLevel := out, ssrWrites := s.ssrWrites + 1,
                       currentPhase := ph2 }
    let s2 :=
      match s.currentPhase with
      | .COOLING =>
          let s3 := { s1 with heatingEnabled := false, coolingFanEnabled := true }
          if s.TCCelsius > tgt then
            { s3 with fanOn := true, fanWrites := s3.fanWrites + 1 }
          else
            { s3 with fanOn := false, fanWrites := s3.fanWrites + 1 }
      | _ => s1
    { s2 with elapsedHeatingTime := s2.elapsedHeatingTime + 1 / 4 }
  else s

/-- The four sequential bounded-power regulation `if`s shared (up to
constants) by `freeHeating()` and `runWarmup()`, acting on the sub-state
statics `slowdown`/`rampup` and the PWM variable `Output`.  Arguments:
measured `tc`, `target`, the gap threshold, the ramp-up output level, the
slow-down creep level, the regulate level, and the incoming `Output`,
`slowdown`, `rampup`.  Returns the new `(slowdown, rampup, Output, number
of analogWrite calls performed)`.  Each `if` reads the values produced by
the previous ones, exactly as the sequential source does. -/
def boundedReg (tc target gapLim rampOut creepOut regOut out0 : ℚ) (sd ru : Bool) :
    Bool × Bool × ℚ × ℕ :=
  let gap := |target - tc|
  let out1 := if sd = false ∧ ru = true then rampOut else out0
  let w1 : ℕ := if sd = false ∧ ru = true then 1 else 0
  let out2 := if gap < gapLim ∧ tc < target ∧ ru = true then creepOut else out1
  let w2 := if gap < gapLim ∧ tc < target ∧ ru = true then w1 + 1 else w1
  let sd2 := if gap < gapLim ∧ tc < target ∧ ru = true then true else sd
  let sd3 := if tc ≥ target ∧ sd2 = true ∧ ru = true then false else sd2
  let ru3 := if tc ≥ target ∧ sd2 = true ∧ ru = true then false else ru
  let out4 := if sd3 = false ∧ ru3 = false then (if tc < target then regOut else 0) else out2
  let w4 := if sd3 = false ∧ ru3 = false then w2 + 1 else w2
  (sd3, ru3, out4, w4)

/-- `freeHeating()`: one due 250 ms step of the free-heating mode.  The
bounded-power sub-state machine runs with full ramp output 255, gap
threshold 25, target-tiered creep output (10/20/30), regulate output 40;
the sub-state lives in the function-local statics `fhSlowdown`/`fhRampup`.
`ssrLevel` keeps its old value when no stage performed a write this tick,
and otherwise ends at the last value written, which is the final
`Output`. -/
def freeHeating (s : Controller) : Controller :=
  if s.enableFreeHeating = true then
    let creepOut : ℚ :=
      if s.freeHeatingTemp < 100 then 10
      else if s.freeHeatingTemp < 200 then 20
      else 30
    let r := boundedReg s.TCCelsius (s.freeHeatingTemp : ℚ) 25 255 creepOut 40 s.Output
               s.fhSlowdown s.fhRampup
    { s with targetTemp := (s.freeHeatingTemp : ℚ),
             fhSlowdown := r.1, fhRampup := r.2.1, Output := r.2.2.1,
             ssrLevel := if r.2.2.2 > 0 then r.2.2.1 else s.ssrLevel,
             ssrWrites := s.ssrWrites + r.2.2.2,
             elapsedHeatingTime := s.elapsedHeatingTime + 1 / 4 }
  else s

/-- `runWarmup()`: the gentler variant of `freeHeating` (capped ramp output
125, gap threshold 10, creep output 4, regulate output 40), with its own
statics `wuSlowdown`/`wuRampup`. -/
def runWarmup (s : Controller) : Controller :=
  if s.enableWarmup = true then
    let r := boundedReg s.TCCelsius (s.warmupTemp : ℚ) 10 125 4 40 s.Output
               s.wuSlowdown s.wuRampup
    { s with targetTemp := (s.warmupTemp : ℚ),
             wuSlowdown := r.1, wuRampup := r.2.1, Output := r.2.2.1,
             ssrLevel := if r.2.2.2 > 0 then r.2.2.1 else s.ssrLevel,
             ssrWrites := s.ssrWrites + r.2.2.2,
             elapsedHeatingTime := s.elapsedHeatingTime + 1 / 4 }
  else s

/-- `freeCooling()`: one due 250 ms step; fan on iff above the cut-off. -/
def freeCooling (s : Controller) : Controller :=
  if s.enableFreeCooling = true then
    let s0 := { s with targetTemp := (s.freeCoolingTemp : ℚ) }
    let s1 :=
      if s0.TCCelsius > (s0.freeCoolingTemp : ℚ) then
        { s0 with fanOn := true, fanWrites := s0.fanWrites + 1 }
      else
        { s0 with fanOn := false, fanWrites := s0.fanWrites + 1 }
    { s1 with elapsedHeatingTime := s1.elapsedHeatingTime + 1 / 4 }
  else s

/-- `measureTemperature()` followed by its `printTemp()` call: store the raw
reading in `TCCelsius`; `printTemp` then substitutes 55 °C and shows the
red "Temp ERROR" field (modelled by `tempFault`) whenever the stored value
exceeds 500 °C, and otherwise redraws the normal reading (clearing the
error field). -/
def measureTemperature (raw : ℚ) (s : Controller) : Controller :=
  let s1 := { s with TCCelsius := raw }
  if s1.TCCelsius > 500 then { s1 with TCCelsius := 55, tempFault := true }
  else { s1 with tempFault := false }

/-- The events that drive the controller: an encoder-CLK interrupt, a
serviced button press (`buttonPressedFlag` consumed by `loop()`), a due
tick of one of the four mode state machines, and a due temperature
sample. -/
inductive Action
  | rotate (clkNow dtLevel : Bool)
  | press
  | reflowTick
  | warmupTick
  | heatTick
  | coolTick
  | measure (raw : ℚ)

/-- Apply one event to the controller state. -/
def stepA : Action → Controller → Controller
  | .rotate c d => rotaryEncoderISR c d
  | .press => processRotaryButton
  | .reflowTick => runReflow
  | .warmupTick => runWarmup
  | .heatTick => freeHeating
  | .coolTick => freeCooling
  | .measure r => measureTemperature r

/-- Apply a list of events, oldest first. -/
def runActs (acts : List Action) (s : Controller) : Controller :=
  acts.foldl (fun st a => stepA a st) s

/-- States the firmware can be in: anything produced from the post-`setup()`
state by a sequence of events. -/
inductive Reachable : Controller → Prop
  | boot (clk0 : Bool) (out0 : ℚ) : Reachable (initState clk0 out0)
  | step {s : Controller} (a : Action) : Reachable s → Reachable (stepA a s)

/-- One pass of `loop()` without a pending button press: sample (and
fault-clamp) the temperature, then run the four mode state machines in
source order. -/
def loopTick (raw : ℚ) (s : Controller) : Controller :=
  freeCooling (freeHeating (runWarmup (runReflow (measureTemperature raw s))))

/-- The structural invariant of the menu state machine: a field-selection
flag can only be set while `itemCounter` rests on that field's menu
position (pressing toggles the flag of the current position, and rotation
navigates only when no flag is set), and each mode-enable flag is only set
while its start/stop button's selection flag is set. -/
def Inv (s : Controller) : Prop :=
  (s.preheatTempSelected = true → s.itemCounter = 0) ∧
  (s.preheatTimeSelected = true → s.itemCounter = 1) ∧
  (s.soakingTempSelected = true → s.itemCounter = 2) ∧
  (s.soakingTimeSelected = true → s.itemCounter = 3) ∧
  (s.reflowTempSelected = true → s.itemCounter = 4) ∧
  (s.reflowTimeSelected = true → s.itemCounter = 5) ∧
  (s.coolingTempSelected = true → s.itemCounter = 6) ∧
  (s.coolingTimeSelected = true → s.itemCounter = 7) ∧
  (s.warmupTempSelected = true → s.itemCounter = 8) ∧
  (s.freeWarmUpButtonSelected = true → s.itemCounter = 9) ∧
  (s.startStopButtonSelected = true → s.itemCounter = 10) ∧
  (s.freeHeatingTargetSelected = true → s.itemCounter = 11) ∧
  (s.freeHeatingOnOffSelected = true → s.itemCounter = 12) ∧
  (s.freeCoolingTargetSelected = true → s.itemCounter = 13) ∧
  (s.freeCoolingOnOffSelected = true → s.itemCounter = 14) ∧
  (s.solderpasteFieldSelected = true → s.itemCounter = 15) ∧
  (s.reflow = true → s.startStopButtonSelected = true) ∧
  (s.enableWarmup = true → s.freeWarmUpButtonSelected = true) ∧
  (s.enableFreeHeating = true → s.freeHeatingOnOffSelected = true) ∧
  (s.enableFreeCooling = true → s.freeCoolingOnOffSelected = true)

/-- At most one of the four run modes is enabled. -/
def atMostOneModeActive (s : Controller) : Prop :=
  ¬(s.reflow = true ∧ s.enableWarmup = true) ∧
  ¬(s.reflow = true ∧ s.enableFreeHeating = true) ∧
  ¬(s.reflow = true ∧ s.enableFreeCooling = true) ∧
  ¬(s.enableWarmup = true ∧ s.enableFreeHeating = true) ∧
  ¬(s.enableWarmup = true ∧ s.enableFreeCooling = true) ∧
  ¬(s.enableFreeHeating = true ∧ s.enableFreeCooling = true)

/-- One counter-clockwise encoder detent: a rising CLK edge with DT low,
then the falling edge. -/
def ccwDetent : List Action := [.rotate true false, .rotate false false]

/-- Navigate from the boot menu position (-1) to position 12 (the
free-heating start/stop button): four counter-clockwise detents,
`-1 → 15 → 14 → 13 → 12`. -/
def actsToHeatingButton : List Action := ccwDetent ++ ccwDetent ++ ccwDetent ++ ccwDetent

/-- A state in which a previous free-heating session ran to its target and
was stopped: the function-local statics ended in the regulate stage
(`fhRampup = false`, `fhSlowdown = false`), the cursor rests on the
free-heating button, the plate still reads 200 °C, and no mode is
enabled. -/
def cexC7state : Controller :=
  { initState false 0 with
    itemCounter := 12
    TCCelsius := 200
    fhRampup := false
    fhSlowdown := false }

/-- The state right after pressing the free-heating button on
`cexC7state`: a freshly (re)activated free-heating session. -/
def cexC7press : Controller := processRotaryButton cexC7state

/-- Navigate from the boot menu position to position 10 (the reflow
start/stop button) and press it: a running reflow session. -/
def c9acts : List Action :=
  ccwDetent ++ ccwDetent ++ ccwDetent ++ ccwDetent ++ ccwDetent ++ ccwDetent ++ [.press]

/-- A reachable state with an active reflow session. -/
def c9state : Controller := runActs c9acts (initState false 0)

/-- A reachable state with free heating just activated (used to witness
mode exclusivity at a state with an active mode). -/
def c2state : Controller := runActs (actsToHeatingButton ++ [.press]) (initState false 0)

/-- A mid-session reflow state in the REFLOW phase of paste 0 with the
measured temperature just past the peak breakpoint (170 °C > 165 °C) but
the elapsed time well short of the end-time breakpoint (200 s < 240 s). -/
def cexC1state : Controller :=
  { initState false 0 with
    reflow := true
    currentPhase := ReflowPhase.REFLOW
    TCCelsius := 170
    elapsedHeatingTime := 200 }

/-- A reflow session that has reached the end of the 340 s time scale in
the COOLING phase, plate still warm, fan running. -/
def c8state : Controller :=
  { initState false 0 with
    reflow := true
    currentPhase := ReflowPhase.COOLING
    itemCounter := 10
    startStopButtonSelected := true
    elapsedHeatingTime := 340
    TCCelsius := 100
    heatingEnabled := false
    coolingFanEnabled := true
    fanOn := true }

/-- Another frozen reflow session (beyond the time scale, fan off). -/
def c10state : Controller :=
  { initState false 0 with
    reflow := true
    currentPhase := ReflowPhase.COOLING
    itemCounter := 10
    startStopButtonSelected := true
    elapsedHeatingTime := 341
    TCCelsius := 90
    heatingEnabled := false
    coolingFanEnabled := true
    fanOn := false }

/-- A profile whose breakpoint times are not strictly increasing:
`soakingTime = preheatTime = 90`. -/
def malformedPaste : Solderpaste := ⟨90, 90, 130, 90, 165, 240, 165, 250⟩

/-- A state in edit mode on the solder-paste field with paste 2 dialled in
(different from the previously committed paste 0): the next press commits
the selection. -/
def c5state : Controller :=
  { initState false 0 with
    itemCounter := 15
    solderpasteFieldSelected := true
    solderPasteSelected := 2 }

/-- A state with an active reflow session used to witness the target / tick
linkage (reflow enabled, clock at 100 s in the SOAK phase). -/
def c3state : Controller :=
  { initState false 0 with
    reflow := true
    currentPhase := ReflowPhase.SOAK
    itemCounter := 10
    startStopButtonSelected := true
    TCCelsius := 95
    elapsedHeatingTime := 100 }

/-- The 20 boolean fields the menu invariant is about: the 16 selection
flags in declaration order, then `reflow`, `enableWarmup`,
`enableFreeHeating`, `enableFreeCooling`. -/
def flagsView (s : Controller) :
    Bool × Bool × Bool × Bool × Bool × Bool × Bool × Bool × Bool × Bool ×
      Bool × Bool × Bool × Bool × Bool × Bool × Bool × Bool × Bool × Bool :=
  (s.preheatTempSelected, s.preheatTimeSelected, s.soakingTempSelected,
   s.soakingTimeSelected, s.reflowTempSelected, s.reflowTimeSelected,
   s.coolingTempSelected, s.coolingTimeSelected, s.warmupTempSelected,
   s.freeWarmUpButtonSelected, s.startStopButtonSelected,
   s.freeHeatingTargetSelected, s.freeHeatingOnOffSelected,
   s.freeCoolingTargetSelected, s.freeCoolingOnOffSelected,
   s.solderpasteFieldSelected, s.reflow, s.enableWarmup,
   s.enableFreeHeating, s.enableFreeCooling)

/-- All 16 selection flags are clear. -/
def noSelection (s : Controller) : Prop :=
  s.preheatTempSelected = false ∧ s.preheatTimeSelected = false ∧
  s.soakingTempSelected = false ∧ s.soakingTimeSelected = false ∧
  s.reflowTempSelected = false ∧ s.reflowTimeSelected = false ∧
  s.coolingTempSelected = false ∧ s.coolingTimeSelected = false ∧
  s.warmupTempSelected = false ∧ s.freeWarmUpButtonSelected = false ∧
  s.startStopButtonSelected = false ∧ s.freeHeatingTargetSelected = false ∧
  s.freeHeatingOnOffSelected = false ∧ s.freeCoolingTargetSelected = false ∧
  s.freeCoolingOnOffSelected = false ∧ s.solderpasteFieldSelected = false

/-! ## Theorems -/

theorem reachable_runActs (acts : List Action) (s : Controller)
    (h : Reachable s) : Reachable (runActs acts s) := by
  induction acts generalizing s with
  | nil => exact h
  | cons a rest ih => exact ih (stepA a s) (Reachable.step a h)

theorem inv_initState (clk0 : Bool) (out0 : ℚ) : Inv (initState clk0 out0) := by
  simp [Inv, initState]

theorem inv_of_views (a b : Controller) (hf : flagsView a = flagsView b)
    (hi : a.itemCounter = b.itemCounter) (h : Inv b) : Inv a := by
  unfold flagsView at hf
  simp only [Prod.mk.injEq] at hf
  obtain ⟨e1, e2, e3, e4, e5, e6, e7, e8, e9, e10,
          e11, e12, e13, e14, e15, e16, e17, e18, e19, e20⟩ := hf
  unfold Inv at h ⊢
  rw [e1, e2, e3, e4, e5, e6, e7, e8, e9, e10, e11, e12, e13, e14, e15, e16,
      e17, e18, e19, e20, hi]
  exact h

theorem inv_of_noSelection (a b : Controller) (hf : flagsView a = flagsView b)
    (hn : noSelection b) (h : Inv b) : Inv a := by
  unfold flagsView at hf
  simp only [Prod.mk.injEq] at hf
  obtain ⟨e1, e2, e3, e4, e5, e6, e7, e8, e9, e10,
          e11, e12, e13, e14, e15, e16, e17, e18, e19, e20⟩ := hf
  obtain ⟨n1, n2, n3, n4, n5, n6, n7, n8, n9, n10, n11, n12, n13, n14, n15, n16⟩ := hn
  obtain ⟨-, -, -, -, -, -, -, -, -, -, -, -, -, -, -, -, m1, m2, m3, m4⟩ := h
  unfold Inv
  rw [e1, e2, e3, e4, e5, e6, e7, e8, e9, e10, e11, e12, e13, e14, e15, e16,
      e17, e18, e19, e20]
  rw [n1, n2, n3, n4, n5, n6, n7, n8, n9, n10, n11, n12, n13, n14, n15, n16]
  refine ⟨?_, ?_, ?_, ?_, ?_, ?_, ?_, ?_, ?_, ?_, ?_, ?_, ?_, ?_, ?_, ?_,
          ?_, ?_, ?_, ?_⟩ <;> intro hx
  · exact absurd hx (by simp)
  · exact absurd hx (by simp)
  · exact absurd hx (by simp)
  · exact absurd hx (by simp)
  · exact absurd hx (by simp)
  · exact absurd hx (by simp)
  · exact absurd hx (by simp)
  · exact absurd hx (by simp)
  · exact absurd hx (by simp)
  · exact absurd hx (by simp)
  · exact absurd hx (by simp)
  · exact absurd hx (by simp)
  · exact absurd hx (by simp)
  · exact absurd hx (by simp)
  · exact absurd hx (by simp)
  · exact absurd hx (by simp)
  · exact absurd (n11 ▸ m1 hx) (by simp)
  · exact absurd (n10 ▸ m2 hx) (by simp)
  · exact absurd (n13 ▸ m3 hx) (by simp)
  · exact absurd (n15 ▸ m4 hx) (by simp)

theorem rotate_flagsView (c d : Bool) (s : Controller) :
    flagsView (rotaryEncoderISR c d s) = flagsView s := by
  unfold rotaryEncoderISR
  by_cases h1 : s.preheatTempSelected = true
  · rw [if_pos h1]; split_ifs <;> rfl
  rw [if_neg h1]
  by_cases h2 : s.preheatTimeSelected = true
  · rw [if_pos h2]; split_ifs <;> rfl
  rw [if_neg h2]
  by_cases h3 : s.soakingTempSelected = true
  · rw [if_pos h3]; split_ifs <;> rfl
  rw [if_neg h3]
  by_cases h4 : s.soakingTimeSelected = true
  · rw [if_pos h4]; split_ifs <;> rfl
  rw [if_neg h4]
  by_cases h5 : s.reflowTempSelected = true
  · rw [if_pos h5]; split_ifs <;> rfl
  rw [if_neg h5]
  by_cases h6 : s.reflowTimeSelected = true
  · rw [if_pos h6]; split_ifs <;> rfl
  rw [if_neg h6]
  by_cases h7 : s.coolingTempSelected = true
  · rw [if_pos h7]; split_ifs <;> rfl
  rw [if_neg h7]
  by_cases h8 : s.coolingTimeSelected = true
  · rw [if_pos h8]; split_ifs <;> rfl
  rw [if_neg h8]
  by_cases h9 : s.warmupTempSelected = true
  · rw [if_pos h9]; split_ifs <;> rfl
  rw [if_neg h9]
  by_cases h10 : s.freeWarmUpButtonSelected = true
  · rw [if_pos h10]
  rw [if_neg h10]
  by_cases h11 : s.freeHeatingTargetSelected = true
  · rw [if_pos h11]; split_ifs <;> rfl
  rw [if_neg h11]
  by_cases h12 : s.startStopButtonSelected = true
  · rw [if_pos h12]
  rw [if_neg h12]
  by_cases h13 : s.freeCoolingTargetSelected = true
  · rw [if_pos h13]; split_ifs <;> rfl
  rw [if_neg h13]
  by_cases h14 : s.freeHeatingOnOffSelected = true
  · rw [if_pos h14]
  rw [if_neg h14]
  by_cases h15 : s.freeCoolingOnOffSelected = true
  · rw [if_pos h15]
  rw [if_neg h15]
  by_cases h16 : s.solderpasteFieldSelected = true
  · rw [if_pos h16]; split_ifs <;> rfl
  rw [if_neg h16]
  split_ifs <;> rfl

theorem rotate_itemCounter (c d : Bool) (s : Controller) :
    (rotaryEncoderISR c d s).itemCounter = s.itemCounter ∨ noSelection s := by
  unfold rotaryEncoderISR
  by_cases h1 : s.preheatTempSelected = true
  · rw [if_pos h1]; left; split_ifs <;> rfl
  rw [if_neg h1]
  by_cases h2 : s.preheatTimeSelected = true
  · rw [if_pos h2]; left; split_ifs <;> rfl
  rw [if_neg h2]
  by_cases h3 : s.soakingTempSelected = true
  · rw [if_pos h3]; left; split_ifs <;> rfl
  rw [if_neg h3]
  by_cases h4 : s.soakingTimeSelected = true
  · rw [if_pos h4]; left; split_ifs <;> rfl
  rw [if_neg h4]
  by_cases h5 : s.reflowTempSelected = true
  · rw [if_pos h5]; left; split_ifs <;> rfl
  rw [if_neg h5]
  by_cases h6 : s.reflowTimeSelected = true
  · rw [if_pos h6]; left; split_ifs <;> rfl
  rw [if_neg h6]
  by_cases h7 : s.coolingTempSelected = true
  · rw [if_pos h7]; left; split_ifs <;> rfl
  rw [if_neg h7]
  by_cases h8 : s.coolingTimeSelected = true
  · rw [if_pos h8]; left; split_ifs <;> rfl
  rw [if_neg h8]
  by_cases h9 : s.warmupTempSelected = true
  · rw [if_pos h9]; left; split_ifs <;> rfl
  rw [if_neg h9]
  by_cases h10 : s.freeWarmUpButtonSelected = true
  · rw [if_pos h10]; left; rfl
  rw [if_neg h10]
  by_cases h11 : s.freeHeatingTargetSelected = true
  · rw [if_pos h11]; left; split_ifs <;> rfl
  rw [if_neg h11]
  by_cases h12 : s.startStopButtonSelected = true
  · rw [if_pos h12]; left; rfl
  rw [if_neg h12]
  by_cases h13 : s.freeCoolingTargetSelected = true
  · rw [if_pos h13]; left; split_ifs <;> rfl
  rw [if_neg h13]
  by_cases h14 : s.freeHeatingOnOffSelected = true
  · rw [if_pos h14]; left; rfl
  rw [if_neg h14]
  by_cases h15 : s.freeCoolingOnOffSelected = true
  · rw [if_pos h15]; left; rfl
  rw [if_neg h15]
  by_cases h16 : s.solderpasteFieldSelected = true
  · rw [if_pos h16]; left; split_ifs <;> rfl
  rw [if_neg h16]
  right
  unfold noSelection
  simp_all

theorem inv_rotate (c d : Bool) (s : Controller) (h : Inv s) :
    Inv (rotaryEncoderISR c d s) := by
  rcases rotate_itemCounter c d s with hi | hn
  · exact inv_of_views _ s (rotate_flagsView c d s) hi h
  · exact inv_of_noSelection _ s (rotate_flagsView c d s) hn h

set_option maxHeartbeats 1000000 in
theorem inv_press (s : Controller) (h : Inv s) : Inv (processRotaryButton s) := by
  obtain ⟨i1, i2, i3, i4, i5, i6, i7, i8, i9, i10,
          i11, i12, i13, i14, i15, i16, i17, i18, i19, i20⟩ := h
  unfold processRotaryButton
  by_cases h0 : s.itemCounter = 0
  · rw [if_pos h0]; simp only [pressCase0]; unfold Inv; split_ifs <;> simp_all
  rw [if_neg h0]
  by_cases h1 : s.itemCounter = 1
  · rw [if_pos h1]; simp only [pressCase1]; unfold Inv; split_ifs <;> simp_all
  rw [if_neg h1]
  by_cases h2 : s.itemCounter = 2
  · rw [if_pos h2]; simp only [pressCase2]; unfold Inv; split_ifs <;> simp_all
  rw [if_neg h2]
  by_cases h3 : s.itemCounter = 3
  · rw [if_pos h3]; simp only [pressCase3]; unfold Inv; split_ifs <;> simp_all
  rw [if_neg h3]
  by_cases h4 : s.itemCounter = 4
  · rw [if_pos h4]; simp only [pressCase4]; unfold Inv; split_ifs <;> simp_all
  rw [if_neg h4]
  by_cases h5 : s.itemCounter = 5
  · rw [if_pos h5]; simp only [pressCase5]; unfold Inv; split_ifs <;> simp_all
  rw [if_neg h5]
  by_cases h6 : s.itemCounter = 6
  · rw [if_pos h6]; simp only [pressCase6]; unfold Inv; split_ifs <;> simp_all
  rw [if_neg h6]
  by_cases h7 : s.itemCounter = 7
  · rw [if_pos h7]; simp only [pressCase7]; unfold Inv; split_ifs <;> simp_all
  rw [if_neg h7]
  by_cases h8 : s.itemCounter = 8
  · rw [if_pos h8]; simp only [pressCase8]; unfold Inv; split_ifs <;> simp_all
  rw [if_neg h8]
  by_cases h9 : s.itemCounter = 9
  · rw [if_pos h9]; simp only [pressCase9]; unfold Inv; split_ifs <;> simp_all
  rw [if_neg h9]
  by_cases h10 : s.itemCounter = 10
  · rw [if_pos h10]; simp only [pressCase10]; unfold Inv; split_ifs <;> simp_all
  rw [if_neg h10]
  by_cases h11 : s.itemCounter = 11
  · rw [if_pos h11]; simp only [pressCase11]; unfold Inv; split_ifs <;> simp_all
  rw [if_neg h11]
  by_cases h12 : s.itemCounter = 12
  · rw [if_pos h12]; simp only [pressCase12]; unfold Inv; split_ifs <;> simp_all
  rw [if_neg h12]
  by_cases h13 : s.itemCounter = 13
  · rw [if_pos h13]; simp only [pressCase13]; unfold Inv; split_ifs <;> simp_all
  rw [if_neg h13]
  by_cases h14 : s.itemCounter = 14
  · rw [if_pos h14]; simp only [pressCase14]; unfold Inv; split_ifs <;> simp_all
  rw [if_neg h14]
  by_cases h15 : s.itemCounter = 15
  · rw [if_pos h15]; simp only [pressCase15, selectProfileCopy]; unfold Inv; split_ifs <;> simp_all
  rw [if_neg h15]
  unfold Inv
  simp_all

theorem runReflow_view (s : Controller) :
    flagsView (runReflow s) = flagsView s ∧
      (runReflow s).itemCounter = s.itemCounter := by
  cases hp : s.currentPhase <;> simp only [runReflow, hp] <;> split_ifs <;>
    exact ⟨rfl, rfl⟩

theorem runWarmup_view (s : Controller) :
    flagsView (runWarmup s) = flagsView s ∧
      (runWarmup s).itemCounter = s.itemCounter := by
  simp only [runWarmup]; split_ifs <;> exact ⟨rfl, rfl⟩

theorem freeHeating_view (s : Controller) :
    flagsView (freeHeating s) = flagsView s ∧
      (freeHeating s).itemCounter = s.itemCounter := by
  simp only [freeHeating]; split_ifs <;> exact ⟨rfl, rfl⟩

theorem freeCooling_view (s : Controller) :
    flagsView (freeCooling s) = flagsView s ∧
      (freeCooling s).itemCounter = s.itemCounter := by
  simp only [freeCooling]; split_ifs <;> exact ⟨rfl, rfl⟩

theorem measureTemperature_view (raw : ℚ) (s : Controller) :
    flagsView (measureTemperature raw s) = flagsView s ∧
      (measureTemperature raw s).itemCounter = s.itemCounter := by
  simp only [measureTemperature]; split_ifs <;> exact ⟨rfl, rfl⟩

theorem inv_step (a : Action) (s : Controller) (h : Inv s) : Inv (stepA a s) := by
  cases a with
  | rotate c d => exact inv_rotate c d s h
  | press => exact inv_press s h
  | reflowTick => exact inv_of_views _ s (runReflow_view s).1 (runReflow_view s).2 h
  | warmupTick => exact inv_of_views _ s (runWarmup_view s).1 (runWarmup_view s).2 h
  | heatTick => exact inv_of_views _ s (freeHeating_view s).1 (freeHeating_view s).2 h
  | coolTick => exact inv_of_views _ s (freeCooling_view s).1 (freeCooling_view s).2 h
  | measure r =>
      exact inv_of_views _ s (measureTemperature_view r s).1 (measureTemperature_view r s).2 h

theorem inv_reachable {s : Controller} (h : Reachable s) : Inv s := by
  induction h with
  | boot c o => exact inv_initState c o
  | step a hr ih => exact inv_step a _ ih

theorem runReflow_paste (s : Controller) :
    workingPaste (runReflow s) = workingPaste s := by
  cases hp : s.currentPhase <;> simp only [runReflow, hp] <;> split_ifs <;> rfl

theorem runWarmup_paste (s : Controller) :
    workingPaste (runWarmup s) = workingPaste s := by
  simp only [runWarmup]; split_ifs <;> rfl

theorem freeHeating_paste (s : Controller) :
    workingPaste (freeHeating s) = workingPaste s := by
  simp only [freeHeating]; split_ifs <;> rfl

theorem freeCooling_paste (s : Controller) :
    workingPaste (freeCooling s) = workingPaste s := by
  simp only [freeCooling]; split_ifs <;> rfl

theorem measureTemperature_paste (raw : ℚ) (s : Controller) :
    workingPaste (measureTemperature raw s) = workingPaste s := by
  simp only [measureTemperature]; split_ifs <;> rfl

theorem rotate_noop_while_selected (c d : Bool) (s : Controller)
    (n1 : s.preheatTempSelected = false) (n2 : s.preheatTimeSelected = false)
    (n3 : s.soakingTempSelected = false) (n4 : s.soakingTimeSelected = false)
    (n5 : s.reflowTempSelected = false) (n6 : s.reflowTimeSelected = false)
    (n7 : s.coolingTempSelected = false) (n8 : s.coolingTimeSelected = false)
    (n9 : s.warmupTempSelected = false) (n10 : s.freeWarmUpButtonSelected = false)
    (n11 : s.freeHeatingTargetSelected = false)
    (hss : s.startStopButtonSelected = true) :
    rotaryEncoderISR c d s = s := by
  unfold rotaryEncoderISR
  simp [n1, n2, n3, n4, n5, n6, n7, n8, n9, n10, n11, hss]

theorem press_stop_keeps_paste (s : Controller) (hi : s.itemCounter = 10)
    (hss : s.startStopButtonSelected = true) :
    workingPaste (processRotaryButton s) = workingPaste s := by
  simp only [processRotaryButton, hi, pressCase10, hss]
  norm_num
  rfl

/-! ## Claim theorems -/

/-- C1 (amended): the phase tracker's transition on a control tick is
`nextPhase`; PREHEAT, SOAK and HOLD advance if and only if both the
measured temperature exceeds the phase's end-temperature breakpoint and the
elapsed time exceeds its end-time breakpoint, but REFLOW advances if and
only if the temperature test or the time test holds (disjunction, not the
conjunction the claim states for all four phases). -/
theorem phase_advance_characterization :
    (∀ s : Controller, s.reflow = true → s.elapsedHeatingTime < 340 →
      (runReflow s).currentPhase =
        nextPhase (workingPaste s) s.TCCelsius s.elapsedHeatingTime s.currentPhase) ∧
    (∀ (p : Solderpaste) (tc t : ℚ),
      (nextPhase p tc t .PREHEAT = .SOAK ↔
        tc > (p.preheatTemp : ℚ) ∧ t > (p.preheatTime : ℚ)) ∧
      (nextPhase p tc t .SOAK = .REFLOW ↔
        tc > (p.soakingTemp : ℚ) ∧ t > (p.soakingTime : ℚ)) ∧
      (nextPhase p tc t .REFLOW = .HOLD ↔
        tc > (p.reflowTemp : ℚ) ∨ t > (p.reflowTime : ℚ)) ∧
      (nextPhase p tc t .HOLD = .COOLING ↔
        tc > (p.coolingTemp : ℚ) ∧ t > (p.coolingTime : ℚ))) := by
  constructor
  · intro s hr ht
    cases hp : s.currentPhase <;>
      simp only [runReflow, hp, hr, ht, and_self, true_and, if_true, eq_self_iff_true] <;>
      split_ifs <;> rfl
  · intro p tc t
    refine ⟨?_, ?_, ?_, ?_⟩ <;> unfold nextPhase <;> split_ifs with h <;> simp_all

/-- C1 counterexample: in the REFLOW phase of the default profile, with the
temperature just past the peak breakpoint (170 > 165) but the elapsed time
short of the end-time breakpoint (200, not > 240), the tick still advances
the phase to HOLD, so the advance is not the claimed conjunction. -/
theorem reflowPhase_or_advance_cex :
    (runReflow cexC1state).currentPhase = ReflowPhase.HOLD ∧
    ¬(cexC1state.TCCelsius > (cexC1state.reflowTemp : ℚ) ∧
      cexC1state.elapsedHeatingTime > (cexC1state.reflowTime : ℚ)) := by
  decide

/-- C1 witness: the tick/transition linkage at a concrete running SOAK
state, and the REFLOW disjunction instantiated at the counterexample
numbers. -/
theorem phase_advance_characterization_witness :
    (runReflow c3state).currentPhase =
      nextPhase (workingPaste c3state) c3state.TCCelsius c3state.elapsedHeatingTime
        c3state.currentPhase ∧
    (nextPhase paste0 170 200 .REFLOW = .HOLD ↔
      (170 : ℚ) > (paste0.reflowTemp : ℚ) ∨ (200 : ℚ) > (paste0.reflowTime : ℚ)) :=
  ⟨phase_advance_characterization.1 c3state (by decide) (by decide),
   (phase_advance_characterization.2 paste0 170 200).2.2.1⟩

/-- C2: after any sequence of events from boot (encoder rotations, button
presses, mode ticks, temperature samples), at most one of the four
run-mode enable flags `reflow`, `enableWarmup`, `enableFreeHeating`,
`enableFreeCooling` is true. -/
theorem modes_mutually_exclusive (s : Controller) (hs : Reachable s) :
    atMostOneModeActive s := by
  obtain ⟨i1, i2, i3, i4, i5, i6, i7, i8, i9, i10,
          i11, i12, i13, i14, i15, i16, i17, i18, i19, i20⟩ := inv_reachable hs
  refine ⟨?_, ?_, ?_, ?_, ?_, ?_⟩ <;> rintro ⟨ha, hb⟩
  · have e1 := i11 (i17 ha); have e2 := i10 (i18 hb); omega
  · have e1 := i11 (i17 ha); have e2 := i13 (i19 hb); omega
  · have e1 := i11 (i17 ha); have e2 := i15 (i20 hb); omega
  · have e1 := i10 (i18 ha); have e2 := i13 (i19 hb); omega
  · have e1 := i10 (i18 ha); have e2 := i15 (i20 hb); omega
  · have e1 := i13 (i19 ha); have e2 := i15 (i20 hb); omega

/-- C2 witness: the exclusivity holds at a concrete reachable state in
which free heating has just been started. -/
theorem modes_mutually_exclusive_witness :
    atMostOneModeActive c2state ∧ c2state.enableFreeHeating = true :=
  ⟨modes_mutually_exclusive c2state
      (reachable_runActs (actsToHeatingButton ++ [Action.press]) (initState false 0)
        (Reachable.boot false 0)),
   by decide⟩

/-- C3: every reflow tick stores exactly `reflowTarget` of the working
profile, current phase and elapsed time in `targetTemp`, and for each
interpolating phase `reflowTarget` equals the spec's interpolation law
`interp` with the claimed anchors; on the default profile,
target(0) = 20, target(90) = 90 (preheat end), target(180) = 130 (soak
end), target(240) = 165 (reflow end). -/
theorem reflow_target_is_linear_interpolation :
    (∀ s : Controller, s.reflow = true → s.elapsedHeatingTime < 340 →
      (runReflow s).targetTemp =
        reflowTarget (workingPaste s) s.currentPhase s.elapsedHeatingTime) ∧
    (∀ (p : Solderpaste) (t : ℚ),
      ((p.preheatTime : ℚ) ≠ 0 →
        reflowTarget p .PREHEAT t =
          interp 0 20 (p.preheatTime : ℚ) (p.preheatTemp : ℚ) t) ∧
      ((p.soakingTime : ℚ) ≠ (p.preheatTime : ℚ) →
        reflowTarget p .SOAK t =
          interp (p.preheatTime : ℚ) (p.preheatTemp : ℚ)
            (p.soakingTime : ℚ) (p.soakingTemp : ℚ) t) ∧
      ((p.reflowTime : ℚ) ≠ (p.soakingTime : ℚ) →
        reflowTarget p .REFLOW t =
          interp (p.soakingTime : ℚ) (p.soakingTemp : ℚ)
            (p.reflowTime : ℚ) (p.reflowTemp : ℚ) t) ∧
      ((p.coolingTime : ℚ) ≠ (p.reflowTime : ℚ) →
        reflowTarget p .HOLD t =
          interp (p.reflowTime : ℚ) (p.reflowTemp : ℚ)
            (p.coolingTime : ℚ) (p.coolingTemp : ℚ) t)) ∧
    reflowTarget paste0 .PREHEAT 0 = 20 ∧
    reflowTarget paste0 .PREHEAT 90 = 90 ∧
    reflowTarget paste0 .SOAK 180 = 130 ∧
    reflowTarget paste0 .REFLOW 240 = 165 := by
  refine ⟨?_, ?_, by norm_num [reflowTarget, paste0], by norm_num [reflowTarget, paste0],
          by norm_num [reflowTarget, paste0], by norm_num [reflowTarget, paste0]⟩
  · intro s hr ht
    cases hp : s.currentPhase <;>
      simp only [runReflow, hp, hr, ht, and_self, true_and, if_true, eq_self_iff_true] <;>
      split_ifs <;> rfl
  · intro p t
    refine ⟨?_, ?_, ?_, ?_⟩ <;> intro h <;> simp only [reflowTarget, interp] <;> ring

/-- C3 witness: the tick linkage at a concrete running SOAK state and the
interpolation equalities at concrete times of the default profile. -/
theorem reflow_target_is_linear_interpolation_witness :
    (runReflow c3state).targetTemp =
      reflowTarget (workingPaste c3state) c3state.currentPhase
        c3state.elapsedHeatingTime ∧
    reflowTarget paste0 .PREHEAT 30 =
      interp 0 20 (paste0.preheatTime : ℚ) (paste0.preheatTemp : ℚ) 30 ∧
    reflowTarget paste0 .SOAK 100 =
      interp (paste0.preheatTime : ℚ) (paste0.preheatTemp : ℚ)
        (paste0.soakingTime : ℚ) (paste0.soakingTemp : ℚ) 100 ∧
    reflowTarget paste0 .REFLOW 200 =
      interp (paste0.soakingTime : ℚ) (paste0.soakingTemp : ℚ)
        (paste0.reflowTime : ℚ) (paste0.reflowTemp : ℚ) 200 ∧
    reflowTarget paste0 .HOLD 245 =
      interp (paste0.reflowTime : ℚ) (paste0.reflowTemp : ℚ)
        (paste0.coolingTime : ℚ) (paste0.coolingTemp : ℚ) 245 :=
  ⟨reflow_target_is_linear_interpolation.1 c3state (by decide) (by decide),
   (reflow_target_is_linear_interpolation.2.1 paste0 30).1 (by decide),
   (reflow_target_is_linear_interpolation.2.1 paste0 100).2.1 (by decide),
   (reflow_target_is_linear_interpolation.2.1 paste0 200).2.2.1 (by decide),
   (reflow_target_is_linear_interpolation.2.1 paste0 245).2.2.2 (by decide)⟩

/-- C4: for every profile with strictly increasing breakpoint times, the
target-temperature function is continuous at the three interpolated phase
boundaries: the outgoing phase's formula and the incoming phase's formula
agree at the boundary time. -/
theorem target_continuous_at_phase_boundaries (p : Solderpaste)
    (hv : StrictTimes p) :
    reflowTarget p .PREHEAT (p.preheatTime : ℚ) =
      reflowTarget p .SOAK (p.preheatTime : ℚ) ∧
    reflowTarget p .SOAK (p.soakingTime : ℚ) =
      reflowTarget p .REFLOW (p.soakingTime : ℚ) ∧
    reflowTarget p .REFLOW (p.reflowTime : ℚ) =
      reflowTarget p .HOLD (p.reflowTime : ℚ) := by
  obtain ⟨w1, w2, w3, w4⟩ := hv
  have a1 : (p.preheatTime : ℚ) ≠ 0 := by
    exact_mod_cast (by omega : p.preheatTime ≠ 0)
  have a2 : (p.soakingTime : ℚ) - (p.preheatTime : ℚ) ≠ 0 := by
    have h2 : (p.preheatTime : ℚ) ≠ (p.soakingTime : ℚ) := by
      exact_mod_cast (by omega : p.preheatTime ≠ p.soakingTime)
    intro hc
    exact h2 (by linarith [sub_eq_zero.mp hc])
  have a3 : (p.reflowTime : ℚ) - (p.soakingTime : ℚ) ≠ 0 := by
    have h3 : (p.soakingTime : ℚ) ≠ (p.reflowTime : ℚ) := by
      exact_mod_cast (by omega : p.soakingTime ≠ p.reflowTime)
    intro hc
    exact h3 (by linarith [sub_eq_zero.mp hc])
  have a4 : (p.coolingTime : ℚ) - (p.reflowTime : ℚ) ≠ 0 := by
    have h4 : (p.reflowTime : ℚ) ≠ (p.coolingTime : ℚ) := by
      exact_mod_cast (by omega : p.reflowTime ≠ p.coolingTime)
    intro hc
    exact h4 (by linarith [sub_eq_zero.mp hc])
  simp only [reflowTarget]
  refine ⟨?_, ?_, ?_⟩ <;> field_simp

/-- C4 witness: boundary continuity at the default profile. -/
theorem target_continuous_at_phase_boundaries_witness :
    reflowTarget paste0 .PREHEAT (paste0.preheatTime : ℚ) =
      reflowTarget paste0 .SOAK (paste0.preheatTime : ℚ) ∧
    reflowTarget paste0 .SOAK (paste0.soakingTime : ℚ) =
      reflowTarget paste0 .REFLOW (paste0.soakingTime : ℚ) ∧
    reflowTarget paste0 .REFLOW (paste0.reflowTime : ℚ) =
      reflowTarget paste0 .HOLD (paste0.reflowTime : ℚ) :=
  target_continuous_at_phase_boundaries paste0 (by decide)

/-- C5 (amended): the profile-selection code performs no validation and has
no error path: `selectProfileCopy` installs any given entry's eight values
verbatim in the working set, the in-program selection path (press on menu
case 15 with a changed index) does the same for the chosen table entry,
and every entry of the compiled-in table happens to have strictly
increasing breakpoint times, so selection alone never installs a malformed
profile. -/
theorem selectProfile_copies_unconditionally :
    (∀ (p : Solderpaste) (s : Controller), workingPaste (selectProfileCopy p s) = p) ∧
    (∀ s : Controller, s.itemCounter = 15 → s.solderpasteFieldSelected = true →
      s.prev_solderPasteSelected ≠ s.solderPasteSelected →
      workingPaste (processRotaryButton s) = pasteAt s.solderPasteSelected) ∧
    (∀ i : ℤ, 0 ≤ i → i < numSolderpastes → StrictTimes (pasteAt i)) := by
  refine ⟨?_, ?_, ?_⟩
  · intro p s; rfl
  · intro s hi hsel hne
    simp only [processRotaryButton, hi, pressCase15, hsel, Bool.not_true]
    norm_num
    rw [if_neg hne]
    rfl
  · intro i h1 h2
    unfold numSolderpastes at h2
    interval_cases i <;> decide

/-- C5 counterexample: a profile with non-increasing breakpoint times
(`soakingTime = preheatTime = 90`) is not rejected by the selection code:
its values land verbatim in the working set (there is no error channel at
all in the selection path). -/
theorem selectProfile_accepts_malformed_cex :
    ¬ StrictTimes malformedPaste ∧
    workingPaste (selectProfileCopy malformedPaste (initState false 0)) =
      malformedPaste :=
  ⟨by decide, rfl⟩

/-- C5 witness: the copy equalities at the malformed profile and at the
concrete state committing table entry 2, and validity of table entry 0. -/
theorem selectProfile_copies_unconditionally_witness :
    workingPaste (selectProfileCopy malformedPaste (initState false 0)) =
      malformedPaste ∧
    workingPaste (processRotaryButton c5state) = pasteAt c5state.solderPasteSelected ∧
    StrictTimes (pasteAt 0) :=
  ⟨selectProfile_copies_unconditionally.1 malformedPaste (initState false 0),
   selectProfile_copies_unconditionally.2.1 c5state rfl rfl (by decide),
   selectProfile_copies_unconditionally.2.2 0 (by norm_num)
     (by norm_num [numSolderpastes])⟩

/-- C6: storing a temperature sample substitutes the safe default 55 °C
and raises the user-visible fault indication exactly when the raw reading
exceeds 500 °C, and stores the reading unchanged (fault indication clear)
when it is at or below 500 °C; in a `loop()` pass the substitution happens
in `measureTemperature`, before any of the four mode state machines
runs. -/
theorem sensor_fault_clamped :
    (∀ (raw : ℚ) (s : Controller),
      (raw > 500 → (measureTemperature raw s).TCCelsius = 55 ∧
        (measureTemperature raw s).tempFault = true) ∧
      (raw ≤ 500 → (measureTemperature raw s).TCCelsius = raw ∧
        (measureTemperature raw s).tempFault = false)) ∧
    (∀ (raw : ℚ) (s : Controller), raw > 500 →
      loopTick raw s =
        freeCooling (freeHeating (runWarmup (runReflow
          { s with TCCelsius := 55, tempFault := true })))) := by
  constructor
  · intro raw s
    constructor <;> intro h <;> simp only [measureTemperature] <;> split_ifs with hc <;>
      first
        | exact ⟨rfl, rfl⟩
        | exact absurd h hc
        | exact absurd hc (not_lt.mpr h)
  · intro raw s h
    unfold loopTick
    have e : measureTemperature raw s = { s with TCCelsius := 55, tempFault := true } := by
      simp only [measureTemperature]
      rw [if_pos h]
    rw [e]

/-- C6 witness: a 600 °C reading is stored as 55 °C with the fault
indication set; a 55 °C reading is stored unchanged with it clear. -/
theorem sensor_fault_clamped_witness :
    (measureTemperature 600 (initState false 0)).TCCelsius = 55 ∧
    (measureTemperature 600 (initState false 0)).tempFault = true ∧
    (measureTemperature 55 (initState false 0)).TCCelsius = 55 ∧
    (measureTemperature 55 (initState false 0)).tempFault = false := by
  obtain ⟨a, b⟩ := (sensor_fault_clamped.1 600 (initState false 0)).1 (by norm_num)
  obtain ⟨c, d⟩ := (sensor_fault_clamped.1 55 (initState false 0)).2 (by norm_num)
  exact ⟨a, b, c, d⟩

/-- C7 (amended): the regulation sub-state lives in function-local statics
that only boot initialises (to ramp-up); activating or re-activating
Free-Heating or Warmup with its button leaves the statics untouched, so a
new session resumes in whatever stage the previous one ended. -/
theorem substate_persists_across_activation :
    (∀ s : Controller, s.itemCounter = 12 → s.freeHeatingOnOffSelected = false →
      (processRotaryButton s).enableFreeHeating = true ∧
      (processRotaryButton s).fhRampup = s.fhRampup ∧
      (processRotaryButton s).fhSlowdown = s.fhSlowdown) ∧
    (∀ s : Controller, s.itemCounter = 9 → s.freeWarmUpButtonSelected = false →
      (processRotaryButton s).enableWarmup = true ∧
      (processRotaryButton s).wuRampup = s.wuRampup ∧
      (processRotaryButton s).wuSlowdown = s.wuSlowdown) ∧
    (∀ (c : Bool) (o : ℚ),
      (initState c o).fhRampup = true ∧ (initState c o).fhSlowdown = false ∧
      (initState c o).wuRampup = true ∧ (initState c o).wuSlowdown = false) := by
  refine ⟨?_, ?_, fun c o => ⟨rfl, rfl, rfl, rfl⟩⟩
  · intro s hi hsel
    simp only [processRotaryButton, hi, pressCase12, hsel]
    norm_num
  · intro s hi hsel
    simp only [processRotaryButton, hi, pressCase9, hsel]
    norm_num

/-- C7 counterexample: re-activating free heating from a state whose
previous session ended in the regulate stage starts the new session with
`fhRampup = false` (not the claimed ramp-up), and its first control tick
outputs 0 instead of the ramp-up level 255. -/
theorem substate_not_reset_cex :
    cexC7press.enableFreeHeating = true ∧ cexC7press.fhRampup = false ∧
    cexC7press.fhSlowdown = false ∧
    (freeHeating cexC7press).Output = 0 ∧ (freeHeating cexC7press).ssrLevel = 0 := by
  refine ⟨by decide, by decide, by decide, ?_, ?_⟩ <;>
    norm_num [cexC7press, cexC7state, processRotaryButton, pressCase12, freeHeating,
      boundedReg, initState]

/-- C7 witness: the activation frame property at the concrete state
`cexC7state` and the boot value of the statics. -/
theorem substate_persists_across_activation_witness :
    (processRotaryButton cexC7state).enableFreeHeating = true ∧
    (processRotaryButton cexC7state).fhRampup = cexC7state.fhRampup ∧
    (processRotaryButton cexC7state).fhSlowdown = cexC7state.fhSlowdown ∧
    (initState false 0).fhRampup = true :=
  ⟨(substate_persists_across_activation.1 cexC7state rfl rfl).1,
   (substate_persists_across_activation.1 cexC7state rfl rfl).2.1,
   (substate_persists_across_activation.1 cexC7state rfl rfl).2.2,
   (substate_persists_across_activation.2.2 false 0).1⟩

/-- C8 (amended): a reflow session never auto-terminates: `runReflow`
never clears the `reflow` flag, and once the elapsed clock has reached the
340 s end of the time scale it no longer touches the fan; only the
explicit stop press clears `reflow` and writes the fan off. -/
theorem reflow_terminates_only_on_stop :
    (∀ s : Controller, (runReflow s).reflow = s.reflow) ∧
    (∀ s : Controller, 340 ≤ s.elapsedHeatingTime →
      (runReflow s).fanOn = s.fanOn ∧ (runReflow s).fanWrites = s.fanWrites) ∧
    (∀ s : Controller, s.itemCounter = 10 → s.startStopButtonSelected = true →
      (processRotaryButton s).reflow = false ∧ (processRotaryButton s).fanOn = false) := by
  refine ⟨?_, ?_, ?_⟩
  · intro s
    cases hp : s.currentPhase <;> simp only [runReflow, hp] <;> split_ifs <;> rfl
  · intro s ht
    have e : runReflow s = s := by
      unfold runReflow
      rw [if_neg]
      rintro ⟨h1, h2⟩
      linarith
    rw [e]
    exact ⟨rfl, rfl⟩
  · intro s hi hss
    simp only [processRotaryButton, hi, pressCase10, hss]
    norm_num

/-- C8 counterexample: a session that reached COOLING and the 340 s end of
the scale with the fan running: the tick is a no-op, `reflow` stays true
and the fan stays on — the session does not terminate by itself and the
fan is not turned off. -/
theorem reflow_no_auto_terminate_cex :
    c8state.currentPhase = ReflowPhase.COOLING ∧
    (340 : ℚ) ≤ c8state.elapsedHeatingTime ∧
    runReflow c8state = c8state ∧ (runReflow c8state).reflow = true ∧
    (runReflow c8state).fanOn = true := by decide

/-- C8 witness: the frozen-fan and stop-press conclusions at the concrete
end-of-scale state. -/
theorem reflow_terminates_only_on_stop_witness :
    (runReflow c8state).fanOn = c8state.fanOn ∧
    (processRotaryButton c8state).reflow = false ∧
    (processRotaryButton c8state).fanOn = false :=
  ⟨(reflow_terminates_only_on_stop.2.1 c8state (by decide)).1,
   (reflow_terminates_only_on_stop.2.2 c8state rfl rfl).1,
   (reflow_terminates_only_on_stop.2.2 c8state rfl rfl).2⟩

/-- C9: in any reachable state with an active reflow session, no single
event — encoder rotation (in particular), button press, mode tick or
temperature sample — changes any of the eight profile working-set
values. -/
theorem no_profile_edit_while_reflow (s : Controller) (hs : Reachable s)
    (hr : s.reflow = true) (a : Action) :
    workingPaste (stepA a s) = workingPaste s := by
  obtain ⟨i1, i2, i3, i4, i5, i6, i7, i8, i9, i10,
          i11, i12, i13, i14, i15, i16, i17, i18, i19, i20⟩ := inv_reachable hs
  have hss := i17 hr
  have hitem := i11 hss
  have n1 : s.preheatTempSelected = false := by
    cases hx : s.preheatTempSelected
    · rfl
    · have := i1 hx; omega
  have n2 : s.preheatTimeSelected = false := by
    cases hx : s.preheatTimeSelected
    · rfl
    · have := i2 hx; omega
  have n3 : s.soakingTempSelected = false := by
    cases hx : s.soakingTempSelected
    · rfl
    · have := i3 hx; omega
  have n4 : s.soakingTimeSelected = false := by
    cases hx : s.soakingTimeSelected
    · rfl
    · have := i4 hx; omega
  have n5 : s.reflowTempSelected = false := by
    cases hx : s.reflowTempSelected
    · rfl
    · have := i5 hx; omega
  have n6 : s.reflowTimeSelected = false := by
    cases hx : s.reflowTimeSelected
    · rfl
    · have := i6 hx; omega
  have n7 : s.coolingTempSelected = false := by
    cases hx : s.coolingTempSelected
    · rfl
    · have := i7 hx; omega
  have n8 : s.coolingTimeSelected = false := by
    cases hx : s.coolingTimeSelected
    · rfl
    · have := i8 hx; omega
  have n9 : s.warmupTempSelected = false := by
    cases hx : s.warmupTempSelected
    · rfl
    · have := i9 hx; omega
  have n10 : s.freeWarmUpButtonSelected = false := by
    cases hx : s.freeWarmUpButtonSelected
    · rfl
    · have := i10 hx; omega
  have n11 : s.freeHeatingTargetSelected = false := by
    cases hx : s.freeHeatingTargetSelected
    · rfl
    · have := i12 hx; omega
  cases a with
  | rotate c d =>
      exact congrArg workingPaste
        (rotate_noop_while_selected c d s n1 n2 n3 n4 n5 n6 n7 n8 n9 n10 n11 hss)
  | press => exact press_stop_keeps_paste s hitem hss
  | reflowTick => exact runReflow_paste s
  | warmupTick => exact runWarmup_paste s
  | heatTick => exact freeHeating_paste s
  | coolTick => exact freeCooling_paste s
  | measure r => exact measureTemperature_paste r s

/-- C9 witness: at the concrete reachable state with reflow running, an
encoder rotation leaves the profile working set unchanged. -/
theorem no_profile_edit_while_reflow_witness :
    c9state.reflow = true ∧
    workingPaste (stepA (Action.rotate true true) c9state) = workingPaste c9state :=
  ⟨by decide,
   no_profile_edit_while_reflow c9state
     (reachable_runActs c9acts (initState false 0) (Reachable.boot false 0))
     (by decide) (Action.rotate true true)⟩

/-- C10: once an active reflow session's elapsed clock has reached 340 s,
a reflow tick is a complete no-op: the whole state — heater and fan
outputs, write counters, phase, target, elapsed time and the still-true
`reflow` flag — is returned unchanged. -/
theorem reflow_frozen_after_340 (s : Controller) (hr : s.reflow = true)
    (ht : 340 ≤ s.elapsedHeatingTime) : runReflow s = s := by
  unfold runReflow
  rw [if_neg]
  rintro ⟨h1, h2⟩
  linarith

/-- C10 witness: the freeze at a concrete frozen session state. -/
theorem reflow_frozen_after_340_witness :
    runReflow c10state = c10state ∧ c10state.reflow = true :=
  ⟨reflow_frozen_after_340 c10state (by decide) (by decide), by decide⟩

end Hotplate
